import Mathlib

set_option autoImplicit false

/-!
Verification development for the SOLPLUS inverter sensor integration
(`custom_components/solplus_sensor/sensor.py`).

The Python source is shallowly embedded:

* HTML bodies are `List Char` (the latin-1 decoding of the response body).
* `re.search` on the four fixed patterns is modelled by `reSearch`.  Each
  pattern has the shape `PRE \s* ([\d.,]+) \s* SUF` where `PRE` and `SUF`
  are literals whose characters are disjoint from the classes `\s` and
  `[\d.,]` at the relevant boundaries, so greedy maximal-munch matching is
  exact (no backtracking can succeed where maximal munch fails), and
  leftmost search is a scan over start positions.
* Python's `(False, {})` failure results become `Option.none`; a success
  `(True, d)` becomes `some d`.
* `datetime` timestamps are integers counting microseconds; `time`-of-day
  values are naturals counting minutes since midnight (Python compares
  both lexicographically, which is order-isomorphic to these encodings).
* The several `datetime.now()` samples taken during a single
  `get_values` call are modelled as one timestamp `now`.
-/

/-- Model of Python `\s` restricted to the ASCII whitespace the device can emit. -/
def isSpaceChar (c : Char) : Bool :=
  c = ' ' || c = '\t' || c = '\n' || c = '\r' || c = '\x0b' || c = '\x0c'

/-- Model of the regex character class `[\d.,]`. -/
def isNumChar (c : Char) : Bool :=
  c.isDigit || c = '.' || c = ','

/-- Check that the pattern (first argument) occurs literally at the head of the
text (second argument). -/
def matchesAt : List Char → List Char → Bool
  | [], _ => true
  | _ :: _, [] => false
  | p :: ps, s :: ss => p = s && matchesAt ps ss

/-- Try to match `PRE \s* ([\d.,]+) \s* SUF` with the match anchored at the head
of `s`; return the captured group.  Maximal munch is exact here because the
character classes involved are disjoint from what follows them. -/
def matchAt (pre suf : List Char) (s : List Char) : Option (List Char) :=
  if matchesAt pre s then
    let r1 := (s.drop pre.length).dropWhile isSpaceChar
    let grp := r1.takeWhile isNumChar
    if grp = [] then none
    else
      let r2 := (r1.dropWhile isNumChar).dropWhile isSpaceChar
      if matchesAt suf r2 then some grp else none
  else none

/-- Model of `re.search(PRE + r"\s*([\d.,]+)\s*" + SUF, s)`: scan start
positions left to right, return the captured group of the first full match. -/
def reSearch (pre suf : List Char) (s : List Char) : Option (List Char) :=
  match matchAt pre suf s with
  | some g => some g
  | none =>
    match s with
    | [] => none
    | _ :: t => reSearch pre suf t

/-- Model of `.replace(".", "").replace(",", "")`: delete every `.` and `,`. -/
def stripSeps (s : List Char) : List Char :=
  s.filter (fun c => !(c = '.' || c = ','))

/-- Numeric value of a digit string, as Python `int` computes it. -/
def digitsVal (s : List Char) : Nat :=
  s.foldl (fun a c => 10 * a + (c.toNat - 48)) 0

/-- Model of Python `int(s)` on the strings reachable here (digits only after
separator stripping): fails on the empty string, succeeds on digit strings. -/
def pyIntDigits (s : List Char) : Option Int :=
  if s = [] then none
  else if s.all Char.isDigit then some (Int.ofNat (digitsVal s)) else none

/-- One marker extraction of `parseHTML`: `re.search` then
`int(group.replace(".", "").replace(",", ""))`. -/
def extractField (pre suf : List Char) (html : List Char) : Option Int :=
  (reSearch pre suf html).bind (fun g => pyIntDigits (stripSeps g))

/-- The four measurements; the Python dict with keys `energy`, `dc_voltage`,
`ac_voltage`, `power` (a `Measurements` value always carries all four). -/
structure Measurements where
  energy : Int
  dc_voltage : Int
  ac_voltage : Int
  power : Int
  deriving Repr, DecidableEq

/-- Pattern literals of `SOLPLUSInverter.parseHTML`. -/
def energyPre : List Char := "<li>Energie Tag:".data

/-- Suffix literal of the energy pattern. -/
def energySuf : List Char := "kWh".data

/-- Prefix literal of the AC power pattern. -/
def powerPre : List Char := "<b>Leistung AC:".data

/-- Suffix literal of the AC power pattern. -/
def powerSuf : List Char := "Watt</b>".data

/-- Prefix literal of the AC voltage pattern. -/
def acPre : List Char := "<b>Netzspannung:".data

/-- Suffix literal of the AC voltage pattern. -/
def acSuf : List Char := "Volt</b>".data

/-- Prefix literal of the DC voltage pattern. -/
def dcPre : List Char := "<b>Gleichspannung:".data

/-- Suffix literal of the DC voltage pattern. -/
def dcSuf : List Char := "Volt</b>".data

/-- Model of `SOLPLUSInverter.parseHTML`: the four markers are extracted in
source order; the first failure aborts the whole parse with `(False, \x7b\x7d)`,
modelled as `none`. -/
def parseHTML (html : List Char) : Option Measurements :=
  match extractField energyPre energySuf html with
  | none => none
  | some e =>
    match extractField powerPre powerSuf html with
    | none => none
    | some p =>
      match extractField acPre acSuf html with
      | none => none
      | some ac =>
        match extractField dcPre dcSuf html with
        | none => none
        | some dc => some { energy := e, dc_voltage := dc, ac_voltage := ac, power := p }

example : parseHTML [] = none := by decide

example :
    extractField energyPre energySuf ("x<li>Energie Tag: 12.345 kWh y".data) =
      some 12345 := by decide

/-- One microsecond is the unit of timestamps; `SEC` is one second. -/
def SEC : Int := 1000000

/-- The `timedelta(minutes=1)` staleness threshold of `get_values`. -/
def oneMinute : Int := 60 * SEC

/-- The `timedelta(seconds=20)` freshness window of `get_values`. -/
def twentySeconds : Int := 20 * SEC

/-- Poll state owned by one `SOLPLUSInverter`: `_last_updated_at` and
`_values` (the timestamp is microseconds since Python's `datetime.min`). -/
structure PollState where
  last_updated_at : Int
  values : Measurements
  deriving Repr, DecidableEq

/-- State built by `SOLPLUSInverter.__init__`: `datetime.min` and all-zero
values. -/
def initState : PollState :=
  { last_updated_at := 0
    values := { energy := 0, dc_voltage := 0, ac_voltage := 0, power := 0 } }

/-- Model of `SOLPLUSInverter.request`.  The transport outcome is `none` when
the GET raised (timeout, connection refused, any network exception), and
`some (status, body)` when a response arrived with that status code and
latin-1-decoded body.  The Python failure results `(False, \x7b\x7d)` are
`none`; on a 200 response the result is `parseHTML` on the body. -/
def request (transport : Option (Nat × List Char)) : Option Measurements :=
  match transport with
  | none => none
  | some (status, body) => if status = 200 then parseHTML body else none

/-- Model of `SOLPLUSInverter.get_values` at timestamp `now`, where `req` is
the outcome `request` would deliver if a poll is issued.  Returns the
`(is_fresh, values)` pair together with the successor poll state.  A poll is
issued only in the first branch; in the other branch the result does not
depend on `req` at all. -/
def get_values (now : Int) (req : Option Measurements) (s : PollState) :
    (Bool × Measurements) × PollState :=
  if s.last_updated_at < now - oneMinute then
    match req with
    | some nv => ((true, nv), { last_updated_at := now, values := nv })
    | none => ((false, s.values), s)
  else
    ((decide (now - twentySeconds ≤ s.last_updated_at), s.values), s)

/-- The four sensor kinds produced per device. -/
inductive SensorType where
  | energy
  | dc_voltage
  | ac_voltage
  | power
  deriving Repr, DecidableEq

/-- Model of the helper `is_time_in_range` (times in minutes since
midnight). -/
def is_time_in_range (start e t : Nat) : Bool :=
  if start ≤ e then decide (start ≤ t) && decide (t ≤ e)
  else decide (start ≤ t) || decide (t ≤ e)

/-- The `time(23, 0)` dead-band start of `InverterSensor.native_value`. -/
def start_time : Nat := 23 * 60

/-- The `time(3, 0)` dead-band end of `InverterSensor.native_value`. -/
def end_time : Nat := 3 * 60

/-- Model of the `InverterSensor.native_value` property for the `energy`
sensor, at clock time `now` (minutes since midnight) and stored
`_native_value` `v` (`none` is Python `None`).  Returns the value reported
and the stored value after the read (the property assigns
`_native_value = 0` whenever the current time is in the dead-band). -/
def energy_native_value (now : Nat) (v : Option Int) : Option Int × Option Int :=
  if is_time_in_range start_time end_time now then (some 0, some 0) else (v, v)

/-- Model of the `InverterSensor.native_value` property for the three
instantaneous sensor kinds: it just reports the stored value. -/
def measurement_native_value (v : Option Int) : Option Int :=
  v

/-- Model of `InverterSensor.async_update`: `(is_fresh, m)` is the pair
returned by `get_values`; `v` is the stored `_native_value` before the call;
the result is the stored `_native_value` after the call. -/
def async_update (t : SensorType) (is_fresh : Bool) (m : Measurements)
    (v : Option Int) : Option Int :=
  match t with
  | .dc_voltage => some m.dc_voltage
  | .ac_voltage => some m.ac_voltage
  | .power => some m.power
  | .energy => if is_fresh then some m.energy else v

/-- Model of `InverterSensor.async_added_to_hass`: seed `_native_value` from
the persisted sensor data when the restore collaborator has some. -/
def restore_on_add (persisted : Option Int) (v : Option Int) : Option Int :=
  match persisted with
  | some x => some x
  | none => v

example : get_values (61 * SEC) (some initState.values) initState =
    ((true, initState.values), { initState with last_updated_at := 61 * SEC }) := by
  decide

example : (energy_native_value 710 (some 5)).1 = some 5 := by decide

example : (energy_native_value 1410 (some 5)).1 = some 0 := by decide

/-! Helper lemmas about the parser. -/

/-- Lemma: a field extraction fails when the marker is absent or the captured
literal does not parse as an integer. -/
theorem extractField_none (pre suf html : List Char)
    (h : reSearch pre suf html = none ∨
         ∃ g, reSearch pre suf html = some g ∧ pyIntDigits (stripSeps g) = none) :
    extractField pre suf html = none := by
  unfold extractField
  rcases h with h | ⟨g, hg, hpg⟩
  · rw [h]; rfl
  · rw [hg]; exact hpg

/-- Lemma: `pyIntDigits` never returns a negative integer. -/
theorem pyIntDigits_nonneg (s : List Char) (v : Int)
    (h : pyIntDigits s = some v) : 0 ≤ v := by
  unfold pyIntDigits at h
  split at h
  · exact Option.noConfusion h
  · split at h
    · obtain rfl := Option.some.inj h
      exact Int.ofNat_nonneg _
    · exact Option.noConfusion h

/-- Lemma: a successful field extraction yields a non-negative integer. -/
theorem extractField_nonneg (pre suf html : List Char) (v : Int)
    (h : extractField pre suf html = some v) : 0 ≤ v := by
  unfold extractField at h
  cases hg : reSearch pre suf html with
  | none => rw [hg] at h; exact Option.noConfusion h
  | some g => rw [hg] at h; exact pyIntDigits_nonneg _ v h

/-- Lemma: a successful `parseHTML` determines each field as the corresponding
marker extraction. -/
theorem parseHTML_eq_some (html : List Char) (m : Measurements)
    (h : parseHTML html = some m) :
    extractField energyPre energySuf html = some m.energy ∧
    extractField powerPre powerSuf html = some m.power ∧
    extractField acPre acSuf html = some m.ac_voltage ∧
    extractField dcPre dcSuf html = some m.dc_voltage := by
  unfold parseHTML at h
  split at h
  · exact Option.noConfusion h
  · split at h
    · exact Option.noConfusion h
    · split at h
      · exact Option.noConfusion h
      · split at h
        · exact Option.noConfusion h
        · obtain rfl := Option.some.inj h
          refine ⟨?_, ?_, ?_, ?_⟩ <;> assumption

/-- Claim C2: if any of the four textual markers is absent from the body, or a
captured numeric literal fails integer parsing, the whole parse fails and the
result carries no extracted field values (the Python `(False, \x7b\x7d)`,
modelled as `none`). -/
theorem claim2_parse_all_or_nothing (html : List Char)
    (h : (reSearch energyPre energySuf html = none ∨
          ∃ g, reSearch energyPre energySuf html = some g ∧
            pyIntDigits (stripSeps g) = none) ∨
         (reSearch powerPre powerSuf html = none ∨
          ∃ g, reSearch powerPre powerSuf html = some g ∧
            pyIntDigits (stripSeps g) = none) ∨
         (reSearch acPre acSuf html = none ∨
          ∃ g, reSearch acPre acSuf html = some g ∧
            pyIntDigits (stripSeps g) = none) ∨
         (reSearch dcPre dcSuf html = none ∨
          ∃ g, reSearch dcPre dcSuf html = some g ∧
            pyIntDigits (stripSeps g) = none)) :
    parseHTML html = none := by
  have h' : extractField energyPre energySuf html = none ∨
      extractField powerPre powerSuf html = none ∨
      extractField acPre acSuf html = none ∨
      extractField dcPre dcSuf html = none := by
    rcases h with h | h | h | h
    · exact Or.inl (extractField_none _ _ _ h)
    · exact Or.inr (Or.inl (extractField_none _ _ _ h))
    · exact Or.inr (Or.inr (Or.inl (extractField_none _ _ _ h)))
    · exact Or.inr (Or.inr (Or.inr (extractField_none _ _ _ h)))
  unfold parseHTML
  cases hE : extractField energyPre energySuf html with
  | none => rfl
  | some e =>
    cases hP : extractField powerPre powerSuf html with
    | none => rfl
    | some p =>
      cases hA : extractField acPre acSuf html with
      | none => rfl
      | some a =>
        cases hD : extractField dcPre dcSuf html with
        | none => rfl
        | some d => rcases h' with h' | h' | h' | h' <;> simp_all

/-- Witness for C2 at the empty body: the energy marker is absent and the
parse fails with no partial result. -/
theorem claim2_witness :
    reSearch energyPre energySuf [] = none ∧ parseHTML [] = none :=
  ⟨by decide, claim2_parse_all_or_nothing [] (Or.inl (Or.inl (by decide)))⟩

/-- Lemma: a decimal digit is neither `.` nor `,`. -/
theorem digit_ne_sep (c : Char) (h : c.isDigit = true) :
    (!(c = '.' || c = ',')) = true := by
  rcases eq_or_ne c '.' with rfl | h1
  · exact absurd h (by decide)
  rcases eq_or_ne c ',' with rfl | h2
  · exact absurd h (by decide)
  simp [h1, h2]

/-- Lemma: separator stripping leaves a digit string unchanged. -/
theorem stripSeps_digits (s : List Char) (h : s.all Char.isDigit = true) :
    stripSeps s = s := by
  unfold stripSeps
  rw [List.filter_eq_self]
  intro a haMem
  exact digit_ne_sep a (List.all_eq_true.mp h a haMem)

/-- Lemma: the digit fold from an arbitrary accumulator. -/
theorem digitsVal_foldl (b : List Char) : ∀ acc : Nat,
    b.foldl (fun a c => 10 * a + (c.toNat - 48)) acc =
      acc * 10 ^ b.length + b.foldl (fun a c => 10 * a + (c.toNat - 48)) 0 := by
  induction b with
  | nil => intro acc; simp
  | cons c t ih =>
    intro acc
    simp only [List.foldl_cons, List.length_cons]
    rw [ih (10 * acc + (c.toNat - 48)), ih (10 * 0 + (c.toNat - 48))]
    ring

/-- Lemma: the numeric value of a concatenation of digit strings. -/
theorem digitsVal_append (a b : List Char) :
    digitsVal (a ++ b) = digitsVal a * 10 ^ b.length + digitsVal b := by
  unfold digitsVal
  rw [List.foldl_append, digitsVal_foldl]

/-- Claim C7 as amended: normalization deletes a `,` decimal separator and
concatenates the digit runs around it (it does not truncate at the separator),
so a literal `A,B` parses to `value(A) * 10 ^ len(B) + value(B)` — e.g.
`12,5` yields 125, not 12. -/
theorem claim7_amended (a b : List Char) (ha : a ≠ [])
    (hda : a.all Char.isDigit = true) (hdb : b.all Char.isDigit = true) :
    pyIntDigits (stripSeps (a ++ ',' :: b)) =
      some (Int.ofNat (digitsVal a * 10 ^ b.length + digitsVal b)) := by
  have hs : stripSeps (a ++ ',' :: b) = a ++ b := by
    have h1 : stripSeps (a ++ ',' :: b) = stripSeps a ++ stripSeps (',' :: b) := by
      unfold stripSeps; rw [List.filter_append]
    have h2 : stripSeps (',' :: b) = stripSeps b := by
      simp [stripSeps]
    rw [h1, h2, stripSeps_digits a hda, stripSeps_digits b hdb]
  rw [hs]
  have hne : a ++ b ≠ [] := by simp [ha]
  have hall : (a ++ b).all Char.isDigit = true := by
    rw [List.all_append, hda, hdb]; rfl
  unfold pyIntDigits
  rw [if_neg hne, if_pos hall, digitsVal_append]

/-- Counterexample to C7 as stated: a body whose energy literal is `12,5`
parses to energy 125 (the fractional digit is appended), not to the integer
part 12 the claim demands. -/
theorem claim7_counterexample :
    extractField energyPre energySuf
      ("<li>Energie Tag: 12,5 kWh".data) = some 125 ∧
    some (125 : Int) ≠ some (12 : Int) := by
  refine ⟨by decide, by decide⟩

/-- Witness for C7 as amended, at the literal `12,5`: the normalized value is
125. -/
theorem claim7_amended_witness :
    pyIntDigits (stripSeps ("12".data ++ ',' :: "5".data)) = some 125 :=
  (claim7_amended ("12".data) ("5".data) (by decide) (by decide)
    (by decide)).trans (by decide)

/-- Claim C6: when all four marker extractions succeed, `parseHTML` returns
exactly those four integers (each the captured literal with `.` and `,`
stripped). -/
theorem claim6_parse_success (html : List Char) (e p ac dc : Int)
    (he : extractField energyPre energySuf html = some e)
    (hp : extractField powerPre powerSuf html = some p)
    (ha : extractField acPre acSuf html = some ac)
    (hd : extractField dcPre dcSuf html = some dc) :
    parseHTML html =
      some { energy := e, dc_voltage := dc, ac_voltage := ac, power := p } := by
  simp [parseHTML, he, hp, ha, hd]

/-- A body containing all four markers, the energy literal using a thousands
separator as in the spec's example. -/
def exHtml : List Char :=
  ("<li>Energie Tag: 12.345 kWh</li><li><b>Leistung AC: 1.500 Watt</b></li>" ++
   "<li><b>Netzspannung: 230 Volt</b></li><li><b>Gleichspannung: 350 Volt</b></li>").data

/-- Witness for C6: on `exHtml`, which contains the marker text
`Energie Tag: 12.345 kWh`, each extraction succeeds and the parse yields
energy 12345 (separators stripped). -/
theorem claim6_witness :
    extractField energyPre energySuf exHtml = some 12345 ∧
    extractField powerPre powerSuf exHtml = some 1500 ∧
    extractField acPre acSuf exHtml = some 230 ∧
    extractField dcPre dcSuf exHtml = some 350 ∧
    parseHTML exHtml =
      some { energy := 12345, dc_voltage := 350, ac_voltage := 230, power := 1500 } :=
  ⟨by decide, by decide, by decide, by decide,
    claim6_parse_success exHtml 12345 1500 230 350
      (by decide) (by decide) (by decide) (by decide)⟩

/-! Claims about the poll cache and the sensor resolvers. -/

/-- A concrete measurement set distinct from the zero defaults, used as the
outcome of a successful poll in witnesses and counterexamples. -/
def m7 : Measurements :=
  { energy := 7, dc_voltage := 7, ac_voltage := 7, power := 7 }

/-- Claim C4: for the energy sensor, an `async_update` with a stale result
leaves the stored value unchanged, and one with a fresh result overwrites it
with the cache's energy value. -/
theorem claim4_energy_update (m : Measurements) (v : Option Int) :
    async_update .energy false m v = v ∧
    async_update .energy true m v = some m.energy :=
  ⟨rfl, rfl⟩

/-- Claim C9: for the power and voltage sensors, every `async_update`
overwrites the stored value with the corresponding cache value, whatever the
freshness flag was. -/
theorem claim9_measurement_update (f : Bool) (m : Measurements) (v : Option Int) :
    async_update .power f m v = some m.power ∧
    async_update .ac_voltage f m v = some m.ac_voltage ∧
    async_update .dc_voltage f m v = some m.dc_voltage :=
  ⟨rfl, rfl, rfl⟩

/-- Claim C5: when a due poll attempt fails — transport exception, non-200
status, or parse failure — `get_values` returns `(false, last_measurements)`
and the poll state (stored values and last-success timestamp) is unchanged. -/
theorem claim5_failed_poll (now : Int) (s : PollState)
    (tr : Option (Nat × List Char))
    (hdue : oneMinute < now - s.last_updated_at)
    (hfail : tr = none ∨ (∃ st b, tr = some (st, b) ∧ st ≠ 200) ∨
             (∃ b, tr = some (200, b) ∧ parseHTML b = none)) :
    get_values now (request tr) s = ((false, s.values), s) := by
  have hreq : request tr = none := by
    rcases hfail with rfl | ⟨st, b, rfl, hst⟩ | ⟨b, rfl, hb⟩
    · rfl
    · simp [request, hst]
    · simp [request, hb]
  unfold get_values
  rw [hreq, if_pos (by linarith)]

/-- Witness for C5: a transport failure 61 seconds after initialization
returns `(false, stored)` and leaves the state intact. -/
theorem claim5_witness :
    get_values (61 * SEC) (request none) initState =
      ((false, initState.values), initState) :=
  claim5_failed_poll (61 * SEC) initState none (by decide) (Or.inl rfl)

/-- Claim C3 as amended (code thresholds are `is_fresh = (elapsed ≤ 20s)` and
`poll iff elapsed > 60s`): with elapsed time `now - last_success_at` at most
20s, no poll is issued (the result ignores the transport) and the call
returns `(true, stored)`; with 20s < elapsed ≤ 60s, no poll is issued and it
returns `(false, stored)`; with elapsed > 60s a poll attempt is made, whose
outcome decides the result. -/
theorem claim3_amended (now : Int) (s : PollState) (req : Option Measurements) :
    (now - s.last_updated_at ≤ twentySeconds →
      get_values now req s = ((true, s.values), s)) ∧
    (twentySeconds < now - s.last_updated_at →
      now - s.last_updated_at ≤ oneMinute →
      get_values now req s = ((false, s.values), s)) ∧
    (oneMinute < now - s.last_updated_at →
      get_values now req s =
        match req with
        | some nv => ((true, nv), { last_updated_at := now, values := nv })
        | none => ((false, s.values), s)) := by
  have h20 : twentySeconds = 20000000 := by norm_num [twentySeconds, SEC]
  have h60 : oneMinute = 60000000 := by norm_num [oneMinute, SEC]
  rw [h20, h60]
  unfold get_values
  rw [h20, h60]
  refine ⟨fun h => ?_, fun h1 h2 => ?_, fun h => ?_⟩
  · rw [if_neg (by omega), decide_eq_true (by omega :
      now - 20000000 ≤ s.last_updated_at)]
  · rw [if_neg (by omega), decide_eq_false (by omega :
      ¬now - 20000000 ≤ s.last_updated_at)]
  · rw [if_pos (by omega)]

/-- Witness for C3 as amended, at elapsed 10s, 30s and 61s from the initial
state. -/
theorem claim3_amended_witness :
    get_values (10 * SEC) (some m7) initState = ((true, initState.values), initState) ∧
    get_values (30 * SEC) (some m7) initState = ((false, initState.values), initState) ∧
    get_values (61 * SEC) (some m7) initState =
      ((true, m7), { last_updated_at := 61 * SEC, values := m7 }) :=
  ⟨(claim3_amended (10 * SEC) initState (some m7)).1 (by decide),
   (claim3_amended (30 * SEC) initState (some m7)).2.1 (by decide) (by decide),
   (claim3_amended (61 * SEC) initState (some m7)).2.2 (by decide)⟩

/-- Counterexample to C3 as stated: at elapsed exactly 60s no poll is
triggered — the result is `(false, stored)` with the state unchanged, and is
the same whether the transport would have succeeded with new values `m7` or
failed — although the claim says elapsed ≥ 60s triggers a new poll attempt
(which, succeeding with `m7 ≠ stored`, would have returned `(true, m7)`). -/
theorem claim3_counterexample :
    get_values (60 * SEC) (some m7) initState =
      ((false, initState.values), initState) ∧
    get_values (60 * SEC) none initState =
      ((false, initState.values), initState) ∧
    m7 ≠ initState.values := by
  decide

/-- The invariant of C8: all four measurement entries are non-negative (a
`Measurements` value carries all four keys by construction). -/
def MeasOK (m : Measurements) : Prop :=
  0 ≤ m.energy ∧ 0 ≤ m.dc_voltage ∧ 0 ≤ m.ac_voltage ∧ 0 ≤ m.power

/-- Lemma: a successful parse yields only non-negative entries. -/
theorem parseHTML_MeasOK (html : List Char) (m : Measurements)
    (h : parseHTML html = some m) : MeasOK m := by
  obtain ⟨he, hp, ha, hd⟩ := parseHTML_eq_some html m h
  exact ⟨extractField_nonneg _ _ _ _ he, extractField_nonneg _ _ _ _ hd,
    extractField_nonneg _ _ _ _ ha, extractField_nonneg _ _ _ _ hp⟩

/-- Lemma: a successful request yields only non-negative entries. -/
theorem request_MeasOK (tr : Option (Nat × List Char)) (m : Measurements)
    (h : request tr = some m) : MeasOK m := by
  cases tr with
  | none => exact Option.noConfusion h
  | some p =>
    obtain ⟨st, b⟩ := p
    have h' : (if st = 200 then parseHTML b else none) = some m := h
    split at h'
    · exact parseHTML_MeasOK b m h'
    · exact Option.noConfusion h'

/-- Claim C8: the stored measurement set starts as all zeros (hence
non-negative, all four keys present by the shape of `Measurements`), and
every `get_values` call — polling or not, succeeding or failing — preserves
non-negativity of both the stored set and the returned set. -/
theorem claim8_invariant :
    (initState.values =
        { energy := 0, dc_voltage := 0, ac_voltage := 0, power := 0 } ∧
      MeasOK initState.values) ∧
    ∀ (now : Int) (tr : Option (Nat × List Char)) (s : PollState),
      MeasOK s.values →
      MeasOK ((get_values now (request tr) s).2.values) ∧
      MeasOK ((get_values now (request tr) s).1.2) := by
  refine ⟨⟨rfl, le_refl 0, le_refl 0, le_refl 0, le_refl 0⟩, ?_⟩
  intro now tr s hs
  unfold get_values
  split
  · cases hreq : request tr with
    | none => exact ⟨hs, hs⟩
    | some nv => exact ⟨request_MeasOK tr nv hreq, request_MeasOK tr nv hreq⟩
  · exact ⟨hs, hs⟩

/-- Witness for C8: the invariant holds across a concrete failed poll from the
initial state. -/
theorem claim8_witness :
    MeasOK ((get_values (61 * SEC) (request none) initState).2.values) ∧
    MeasOK ((get_values (61 * SEC) (request none) initState).1.2) :=
  claim8_invariant.2 (61 * SEC) none initState
    ⟨le_refl 0, le_refl 0, le_refl 0, le_refl 0⟩

/-- Claim C1 as amended: the energy sensor's zero-reset is applied on every
read whose wall-clock time lies inside the dead-band (23:00 to 03:00), not
once per calendar-day transition, and on no read outside the dead-band. -/
theorem claim1_amended (t : Nat) (v : Option Int) :
    (is_time_in_range start_time end_time t = true →
      energy_native_value t v = (some 0, some 0)) ∧
    (is_time_in_range start_time end_time t = false →
      energy_native_value t v = (v, v)) := by
  constructor <;> intro h <;> simp [energy_native_value, h]

/-- Witness for C1 as amended: a read at 23:30 is zeroed, a read at 12:00 is
untouched. -/
theorem claim1_amended_witness :
    energy_native_value 1410 (some 500) = (some 0, some 0) ∧
    energy_native_value 720 (some 500) = (some 500, some 500) :=
  ⟨(claim1_amended 1410 (some 500)).1 (by decide),
   (claim1_amended 720 (some 500)).2 (by decide)⟩

/-- Counterexample to C1 as stated: within a single dead-band period (reads at
23:30 and 23:45 of the same evening, no day transition between them) the reset
is applied on both reads — the second read re-zeroes the value 7 that a fresh
poll stored between the two reads, where a once-per-transition reset would
have reported 7. -/
theorem claim1_counterexample :
    (energy_native_value 1410 (some 500)).1 = some 0 ∧
    (energy_native_value 1410 (some 500)).2 = some 0 ∧
    async_update .energy true m7 (energy_native_value 1410 (some 500)).2 = some 7 ∧
    (energy_native_value 1425
      (async_update .energy true m7 (energy_native_value 1410 (some 500)).2)).1 =
      some 0 := by
  decide

/-- Claim C10 as amended: with a persisted prior value `x` restored at
startup, the first read before any poll returns `x` — provided the read
happens outside the overnight dead-band; a first read inside the dead-band
returns 0 instead. -/
theorem claim10_amended (x : Int) (t : Nat)
    (h : is_time_in_range start_time end_time t = false) :
    (energy_native_value t (restore_on_add (some x) none)).1 = some x := by
  simp [energy_native_value, restore_on_add, h]

/-- Witness for C10 as amended: a persisted 500 restored at startup is
reported by a first read at 12:00. -/
theorem claim10_amended_witness :
    (energy_native_value 720 (restore_on_add (some 500) none)).1 = some 500 :=
  claim10_amended 500 720 (by decide)

/-- Counterexample to C10 as stated: with persisted value 500 restored at
startup, a first read at 23:30 (inside the dead-band) returns 0, not 500. -/
theorem claim10_counterexample :
    restore_on_add (some 500) none = some 500 ∧
    (energy_native_value 1410 (restore_on_add (some 500) none)).1 = some 0 ∧
    some (0 : Int) ≠ some (500 : Int) := by
  decide
